import Mathlib

/-!
Shallow embedding of `src/Smartleaf/app/(tabs)/index.tsx` (the SmartLeaf
capture screen, `HomeScreen`).  The component's local state
(`permission`, `facing`, `capturedImage`) becomes a `CaptureState`
record, the JSX render becomes the pure function `render`, and each
event handler becomes a pure function from the current state and the
outcome of the platform call it awaits to a new state plus the list of
alerts it raises.
-/

namespace Smartleaf

/-- `useCameraPermissions` result: `null` while unresolved (`unknown`),
otherwise an object whose `granted` field is true (`granted`) or false
(`denied`). -/
inductive PermissionStatus
  | unknown
  | granted
  | denied
deriving DecidableEq, Repr

/-- The `facing` state: `'back' | 'front'`, default `'back'`. -/
inductive CameraFacing
  | back
  | front
deriving DecidableEq, Repr

/-- The capture screen's local React state. `capturedImage` mirrors
`useState<string | null>(null)`. -/
structure CaptureState where
  permissionStatus : PermissionStatus
  cameraFacing : CameraFacing
  capturedImage : Option String
deriving DecidableEq, Repr

/-- `Platform.OS === 'web'`. -/
def isWeb (os : String) : Bool := os == "web"

/-- An `Alert.alert(title, message)` call. -/
structure Alert where
  title : String
  message : String
deriving DecidableEq, Repr

/-- What the camera container shows: the captured-image preview, the
web upload-only placeholder, or the live `CameraView`. -/
inductive MainView
  | preview (uri : String)
  | webPlaceholder
  | cameraView (facing : CameraFacing)
deriving DecidableEq, Repr

/-- The three top-level render branches of `HomeScreen`: the loading
view, the permission-request view, or the main view.  In the main view,
`captureControls` records whether the upload/capture/toggle row is
rendered and `bottomAction` whether the retake/analyze row is. -/
inductive Screen
  | loading
  | permissionRequest
  | main (view : MainView) (captureControls : Bool) (bottomAction : Bool)
deriving DecidableEq, Repr

/-- The render function of `HomeScreen`, following the source's
conditional structure: `if (!isWeb && !permission)` → loading;
`if (!isWeb && permission && !permission.granted)` → permission view;
otherwise the main view, whose camera container shows the preview when
`capturedImage` is set, the web placeholder on web, and the live
`CameraView` otherwise; the controls row renders iff
`!isWeb && !capturedImage` and the bottom row iff `capturedImage`. -/
def render (os : String) (s : CaptureState) : Screen :=
  if isWeb os = false ∧ s.permissionStatus = .unknown then
    .loading
  else if isWeb os = false ∧ s.permissionStatus ≠ .unknown ∧
      s.permissionStatus ≠ .granted then
    .permissionRequest
  else
    let view : MainView :=
      match s.capturedImage with
      | some uri => .preview uri
      | none => if isWeb os then .webPlaceholder else .cameraView s.cameraFacing
    .main view (!isWeb os && s.capturedImage.isNone) s.capturedImage.isSome

/-- Whether the render shows the live `CameraView`. -/
def Screen.showsCameraView : Screen → Bool
  | .main (.cameraView _) _ _ => true
  | _ => false

/-- Whether the render shows the web upload-only placeholder. -/
def Screen.showsWebPlaceholder : Screen → Bool
  | .main .webPlaceholder _ _ => true
  | _ => false

/-- Whether the render is one of the two permission-gate branches
(loading or permission-request). -/
def Screen.isPermissionGate : Screen → Bool
  | .loading => true
  | .permissionRequest => true
  | .main _ _ _ => false

/-- Whether the upload/capture/toggle controls row is rendered. -/
def Screen.showsCaptureControls : Screen → Bool
  | .main _ c _ => c
  | _ => false

/-- Whether the retake/analyze bottom row is rendered. -/
def Screen.showsBottomAction : Screen → Bool
  | .main _ _ b => b
  | _ => false

/-- A handler's result: the state after its `setState` calls and the
alerts it raised. -/
structure HandlerResult where
  state : CaptureState
  alerts : List Alert
deriving DecidableEq, Repr

/-- Options record passed to `ImagePicker.launchImageLibraryAsync`. -/
structure ImagePickerOptions where
  mediaTypes : String
  allowsEditing : Bool
  aspect : Nat × Nat
  /-- quality on the 0–1 scale; the source passes `1` (maximum). -/
  quality : Nat
deriving DecidableEq, Repr

/-- The options `handleUploadImage` passes to the gallery picker. -/
def uploadPickerOptions : ImagePickerOptions :=
  { mediaTypes := "Images"
    allowsEditing := true
    aspect := (4, 3)
    quality := 1 }

/-- Outcome of the awaited `launchImageLibraryAsync` call: the user
canceled, an asset was picked, or the platform call threw. -/
inductive PickerOutcome
  | canceled
  | success (uri : String)
  | failure
deriving DecidableEq, Repr

/-- `handleUploadImage`: on a thrown failure, alert
`('Error', 'Failed to pick image')` and change nothing; if
`result.canceled`, do nothing; otherwise store the picked asset's
`uri` in `capturedImage`. -/
def handleUploadImage (s : CaptureState) (outcome : PickerOutcome) :
    HandlerResult :=
  match outcome with
  | .failure => ⟨s, [⟨"Error", "Failed to pick image"⟩]⟩
  | .canceled => ⟨s, []⟩
  | .success uri => ⟨{ s with capturedImage := some uri }, []⟩

/-- Outcome of the awaited `takePictureAsync` call: a photo with a
`uri`, a falsy photo, or a thrown failure. -/
inductive CaptureOutcome
  | success (uri : String)
  | nullPhoto
  | failure
deriving DecidableEq, Repr

/-- `handleCapturePhoto`: on web, alert that the camera is unavailable
and return; if `cameraRef.current` is null, fall through silently;
otherwise take a picture — storing its `uri` on success, doing nothing
on a falsy photo, and alerting `('Error', 'Failed to capture photo')`
if the call threw. `cameraRef` models `cameraRef.current`. -/
def handleCapturePhoto (os : String) (cameraRef : Option Unit)
    (outcome : CaptureOutcome) (s : CaptureState) : HandlerResult :=
  if isWeb os then
    ⟨s, [⟨"Camera Not Available",
          "Camera is only available on mobile devices."⟩]⟩
  else
    match cameraRef with
    | none => ⟨s, []⟩
    | some _ =>
      match outcome with
      | .failure => ⟨s, [⟨"Error", "Failed to capture photo"⟩]⟩
      | .nullPhoto => ⟨s, []⟩
      | .success uri => ⟨{ s with capturedImage := some uri }, []⟩

/-- The retake button's `onPress`: `setCapturedImage(null)`. -/
def retake (s : CaptureState) : CaptureState :=
  { s with capturedImage := none }

/-- The analyze button's `onPress`:
`Alert.alert('Analyzing', 'Processing image...')` and nothing else. -/
def analyze (s : CaptureState) : HandlerResult :=
  ⟨s, [⟨"Analyzing", "Processing image..."⟩]⟩

/-- `setFacing(current => current === 'back' ? 'front' : 'back')`. -/
def toggleFacing : CameraFacing → CameraFacing
  | .back => .front
  | .front => .back

/-- The toggle button's `onPress`, applied to the whole state. -/
def handleToggleFacing (s : CaptureState) : CaptureState :=
  { s with cameraFacing := toggleFacing s.cameraFacing }

/-- A toggle-facing event delivered through the UI: it can only fire
when its control is rendered, so it has an effect exactly when the
upload/capture/toggle row is on screen. -/
def dispatchToggleFacing (os : String) (s : CaptureState) : CaptureState :=
  if (render os s).showsCaptureControls then handleToggleFacing s else s

/-- C1: for every render of the capture screen, the live camera
viewfinder is rendered if and only if `capturedImage` is none, the
platform is not web, and the permission status is granted. -/
theorem camera_view_iff (os : String) (s : CaptureState) :
    (render os s).showsCameraView = true ↔
      (s.capturedImage = none ∧ isWeb os = false ∧
        s.permissionStatus = PermissionStatus.granted) := by
  obtain ⟨p, f, c⟩ := s
  cases h : isWeb os <;> cases p <;> cases c <;>
    simp [render, Screen.showsCameraView, h]

/-- C2: on web the permission gate (loading / permission-request
branches) is bypassed for every state, the camera viewfinder is never
rendered, and whenever no image is present the upload-only fallback is
rendered. -/
theorem web_bypasses_gate (os : String) (s : CaptureState)
    (h : isWeb os = true) :
    (render os s).isPermissionGate = false ∧
    (render os s).showsCameraView = false ∧
    (s.capturedImage = none → (render os s).showsWebPlaceholder = true) := by
  obtain ⟨p, f, c⟩ := s
  cases p <;> cases c <;>
    simp [render, Screen.isPermissionGate, Screen.showsCameraView,
      Screen.showsWebPlaceholder, h]

theorem web_bypasses_gate_witness :
    (render "web"
        ⟨PermissionStatus.denied, CameraFacing.back, none⟩).isPermissionGate
      = false ∧
    (render "web"
        ⟨PermissionStatus.denied, CameraFacing.back, none⟩).showsCameraView
      = false ∧
    ((⟨PermissionStatus.denied, CameraFacing.back, none⟩ :
        CaptureState).capturedImage = none →
      (render "web"
        ⟨PermissionStatus.denied, CameraFacing.back,
          none⟩).showsWebPlaceholder = true) :=
  web_bypasses_gate "web"
    ⟨PermissionStatus.denied, CameraFacing.back, none⟩ (by decide)

/-- C3: a thrown platform failure in the gallery-pick handler or (on a
camera-capable platform, with the camera ref set) in the capture
handler is caught, raises exactly one error alert, and leaves the
state — hence `capturedImage`, `cameraFacing` and `permissionStatus` —
unchanged, so an idle state stays idle. -/
theorem failure_preserves_state (os : String) (s : CaptureState)
    (h : isWeb os = false) :
    (handleUploadImage s PickerOutcome.failure).state = s ∧
    (handleUploadImage s PickerOutcome.failure).alerts =
      [⟨"Error", "Failed to pick image"⟩] ∧
    (handleCapturePhoto os (some ()) CaptureOutcome.failure s).state = s ∧
    (handleCapturePhoto os (some ()) CaptureOutcome.failure s).alerts =
      [⟨"Error", "Failed to capture photo"⟩] := by
  simp [handleUploadImage, handleCapturePhoto, h]

theorem failure_preserves_state_witness :
    (handleUploadImage
        ⟨PermissionStatus.granted, CameraFacing.back, none⟩
        PickerOutcome.failure).state =
      ⟨PermissionStatus.granted, CameraFacing.back, none⟩ ∧
    (handleUploadImage
        ⟨PermissionStatus.granted, CameraFacing.back, none⟩
        PickerOutcome.failure).alerts =
      [⟨"Error", "Failed to pick image"⟩] ∧
    (handleCapturePhoto "ios" (some ()) CaptureOutcome.failure
        ⟨PermissionStatus.granted, CameraFacing.back, none⟩).state =
      ⟨PermissionStatus.granted, CameraFacing.back, none⟩ ∧
    (handleCapturePhoto "ios" (some ()) CaptureOutcome.failure
        ⟨PermissionStatus.granted, CameraFacing.back, none⟩).alerts =
      [⟨"Error", "Failed to capture photo"⟩] :=
  failure_preserves_state "ios"
    ⟨PermissionStatus.granted, CameraFacing.back, none⟩ (by decide)

/-- C4: the upload handler passes the picker the options
{allow in-place edit: true, aspect 4:3, quality maximum}; from an idle
state a canceled pick leaves the state unchanged with `capturedImage`
still none, and a successful pick stores the selected image's uri. -/
theorem upload_semantics (s : CaptureState) (uri : String)
    (h : s.capturedImage = none) :
    uploadPickerOptions.allowsEditing = true ∧
    uploadPickerOptions.aspect = (4, 3) ∧
    uploadPickerOptions.quality = 1 ∧
    (handleUploadImage s PickerOutcome.canceled).state = s ∧
    (handleUploadImage s PickerOutcome.canceled).state.capturedImage = none ∧
    (handleUploadImage s (PickerOutcome.success uri)).state.capturedImage =
      some uri := by
  refine ⟨rfl, rfl, rfl, rfl, ?_, rfl⟩
  simpa [handleUploadImage] using h

theorem upload_semantics_witness :
    uploadPickerOptions.allowsEditing = true ∧
    uploadPickerOptions.aspect = (4, 3) ∧
    uploadPickerOptions.quality = 1 ∧
    (handleUploadImage
        ⟨PermissionStatus.granted, CameraFacing.back, none⟩
        PickerOutcome.canceled).state =
      ⟨PermissionStatus.granted, CameraFacing.back, none⟩ ∧
    (handleUploadImage
        ⟨PermissionStatus.granted, CameraFacing.back, none⟩
        PickerOutcome.canceled).state.capturedImage = none ∧
    (handleUploadImage
        ⟨PermissionStatus.granted, CameraFacing.back, none⟩
        (PickerOutcome.success "file://tmp/photo1.jpg")).state.capturedImage =
      some "file://tmp/photo1.jpg" :=
  upload_semantics
    ⟨PermissionStatus.granted, CameraFacing.back, none⟩
    "file://tmp/photo1.jpg" rfl

/-- C5: from any idle state on a camera-capable platform, a successful
capture followed by retake restores exactly the pre-capture state, and
the capture itself leaves `cameraFacing` and `permissionStatus`
untouched. -/
theorem capture_retake_roundtrip (os : String) (s : CaptureState)
    (uri : String) (hw : isWeb os = false) (h : s.capturedImage = none) :
    retake (handleCapturePhoto os (some ())
        (CaptureOutcome.success uri) s).state = s ∧
    (handleCapturePhoto os (some ())
        (CaptureOutcome.success uri) s).state.cameraFacing =
      s.cameraFacing ∧
    (handleCapturePhoto os (some ())
        (CaptureOutcome.success uri) s).state.permissionStatus =
      s.permissionStatus := by
  obtain ⟨p, f, c⟩ := s
  cases c with
  | none => simp [handleCapturePhoto, retake, hw]
  | some u => simp at h

theorem capture_retake_roundtrip_witness :
    retake (handleCapturePhoto "android" (some ())
        (CaptureOutcome.success "file://tmp/photo1.jpg")
        ⟨PermissionStatus.granted, CameraFacing.front, none⟩).state =
      ⟨PermissionStatus.granted, CameraFacing.front, none⟩ ∧
    (handleCapturePhoto "android" (some ())
        (CaptureOutcome.success "file://tmp/photo1.jpg")
        ⟨PermissionStatus.granted, CameraFacing.front,
          none⟩).state.cameraFacing = CameraFacing.front ∧
    (handleCapturePhoto "android" (some ())
        (CaptureOutcome.success "file://tmp/photo1.jpg")
        ⟨PermissionStatus.granted, CameraFacing.front,
          none⟩).state.permissionStatus = PermissionStatus.granted :=
  capture_retake_roundtrip "android"
    ⟨PermissionStatus.granted, CameraFacing.front, none⟩
    "file://tmp/photo1.jpg" (by decide) rfl

/-- C6: invoking retake when `capturedImage` is already none leaves
the entire state unchanged. -/
theorem retake_idempotent_on_idle (s : CaptureState)
    (h : s.capturedImage = none) : retake s = s := by
  obtain ⟨p, f, c⟩ := s
  cases c with
  | none => rfl
  | some u => simp at h

theorem retake_idempotent_on_idle_witness :
    retake ⟨PermissionStatus.unknown, CameraFacing.back, none⟩ =
      ⟨PermissionStatus.unknown, CameraFacing.back, none⟩ :=
  retake_idempotent_on_idle
    ⟨PermissionStatus.unknown, CameraFacing.back, none⟩ rfl

/-- C7: the toggle handler flips `cameraFacing` between back and
front and two consecutive toggles restore the whole state; a
toggle-facing event delivered through the UI flips the facing
whenever its control is rendered, and has no effect on web or once an
image is present (the control is not rendered there). -/
theorem toggle_facing_behavior (os : String) (s : CaptureState) :
    (handleToggleFacing s).cameraFacing = toggleFacing s.cameraFacing ∧
    toggleFacing CameraFacing.back = CameraFacing.front ∧
    toggleFacing CameraFacing.front = CameraFacing.back ∧
    handleToggleFacing (handleToggleFacing s) = s ∧
    ((render os s).showsCaptureControls = true →
      (dispatchToggleFacing os s).cameraFacing =
        toggleFacing s.cameraFacing) ∧
    (isWeb os = true → dispatchToggleFacing os s = s) ∧
    (s.capturedImage.isSome = true → dispatchToggleFacing os s = s) := by
  obtain ⟨p, f, c⟩ := s
  cases h : isWeb os <;> cases p <;> cases c <;> cases f <;>
    simp [render, Screen.showsCaptureControls, dispatchToggleFacing,
      handleToggleFacing, toggleFacing, h]

theorem toggle_facing_behavior_witness :
    dispatchToggleFacing "web"
        ⟨PermissionStatus.granted, CameraFacing.back, none⟩ =
      ⟨PermissionStatus.granted, CameraFacing.back, none⟩ :=
  (toggle_facing_behavior "web"
      ⟨PermissionStatus.granted, CameraFacing.back, none⟩).2.2.2.2.2.1
    (by decide)

/-- C8: the capture-controls row is rendered only when no image is
present and the platform is not web, the bottom retake/analyze row
only when an image is present, and the two rows are never rendered
simultaneously. -/
theorem controls_preconditions (os : String) (s : CaptureState) :
    ((render os s).showsCaptureControls = true →
      s.capturedImage = none ∧ isWeb os = false) ∧
    ((render os s).showsBottomAction = true →
      s.capturedImage.isSome = true) ∧
    ¬((render os s).showsCaptureControls = true ∧
      (render os s).showsBottomAction = true) := by
  obtain ⟨p, f, c⟩ := s
  cases h : isWeb os <;> cases p <;> cases c <;>
    simp [render, Screen.showsCaptureControls, Screen.showsBottomAction, h]

theorem controls_preconditions_witness :
    (⟨PermissionStatus.granted, CameraFacing.back, none⟩ :
        CaptureState).capturedImage = none ∧
      isWeb "ios" = false :=
  (controls_preconditions "ios"
      ⟨PermissionStatus.granted, CameraFacing.back, none⟩).1 (by decide)

/-- C9: the analyze handler only raises the
`('Analyzing', 'Processing image...')` alert and returns the state
unchanged, so `capturedImage`, `cameraFacing` and `permissionStatus`
are all preserved. -/
theorem analyze_is_stub (s : CaptureState) :
    (analyze s).state = s ∧
    (analyze s).alerts = [⟨"Analyzing", "Processing image..."⟩] :=
  ⟨rfl, rfl⟩

/-- C10: on a camera-capable platform, invoking capture with a null
camera ref completes silently — state unchanged and no alert — whereas
the thrown-failure path with the ref set does raise an alert. -/
theorem capture_null_ref_silent (os : String) (outcome : CaptureOutcome)
    (s : CaptureState) (h : isWeb os = false) :
    handleCapturePhoto os none outcome s = ⟨s, []⟩ ∧
    (handleCapturePhoto os (some ()) CaptureOutcome.failure s).alerts ≠
      [] := by
  simp [handleCapturePhoto, h]

theorem capture_null_ref_silent_witness :
    handleCapturePhoto "android" none CaptureOutcome.failure
        ⟨PermissionStatus.granted, CameraFacing.back, none⟩ =
      ⟨⟨PermissionStatus.granted, CameraFacing.back, none⟩, []⟩ ∧
    (handleCapturePhoto "android" (some ()) CaptureOutcome.failure
        ⟨PermissionStatus.granted, CameraFacing.back, none⟩).alerts ≠ [] :=
  capture_null_ref_silent "android" CaptureOutcome.failure
    ⟨PermissionStatus.granted, CameraFacing.back, none⟩ (by decide)

end Smartleaf
